import Mathlib

/-!
Shallow embedding of `kap_reader.py` (classes `database` and `reader`).

The sqlite table `KAP_NOTIFICATIONS` has ten columns, in order:
`CODE, NOTIFICATION_ID, PUBLISH_DATE, DISCLOSURE_TYPE, YEAR, PERIOD,
SUMMARY_INFO, RELATED_COMPANIES, EXPLANATIONS, EXPLANATION_SUMMARY`.
A row is modelled as a list of dynamically typed sqlite values, the store as
the list of rows in insertion order.  Network transport and HTML extraction
are external collaborators: a fetch outcome is either a raised request
exception or an HTTP response carrying a status code and (for status 200) the
fields the extractor would produce.  Wall-clock sleeps, console prints and
the on-disk log flush are irrelevant to the modelled state and are dropped;
everything else follows the python source line by line.
-/

/-- A dynamically typed sqlite value: NULL, an integer, or a text value. -/
inductive SqlVal where
  | null : SqlVal
  | i : Int → SqlVal
  | s : String → SqlVal
deriving DecidableEq, Repr

/-- One row of `KAP_NOTIFICATIONS` (ten values, in schema column order). -/
abbrev Row := List SqlVal

/-- The `KAP_NOTIFICATIONS` table, rows in insertion order. -/
abbrev Store := List Row

/-- Column access: sqlite yields NULL for a value that is absent. -/
def col (r : Row) (k : Nat) : SqlVal := r.getD k SqlVal.null

/-- The `NOTIFICATION_ID` column (index 1). -/
def idCol (r : Row) : SqlVal := col r 1

def isIntVal : SqlVal → Bool
  | SqlVal.i _ => true
  | _ => false

def isStrVal : SqlVal → Bool
  | SqlVal.s _ => true
  | _ => false

/-- The integer `NOTIFICATION_ID`s present in the table (sqlite aggregates and
joins ignore NULLs; a non-integer id never equals an integer literal). -/
def idsOf (s : Store) : List Int :=
  s.filterMap (fun r => match idCol r with
    | SqlVal.i n => some n
    | _ => none)

/-- Fold of a binary operation over a list, `none` on the empty list:
the behaviour of sqlite `min`/`max` aggregates over the id column. -/
def optFold (g : Int → Int → Int) : List Int → Option Int
  | [] => none
  | n :: rest => some (rest.foldl g n)

/-- Model of `select min(NOTIFICATION_ID) from KAP_NOTIFICATIONS` (NULL when empty). -/
def minId (s : Store) : Option Int := optFold min (idsOf s)

/-- Model of `select max(NOTIFICATION_ID) from KAP_NOTIFICATIONS` (NULL when empty). -/
def maxId (s : Store) : Option Int := optFold max (idsOf s)

namespace database

/-- Model of `database.delete_notification`: `DELETE FROM KAP_NOTIFICATIONS WHERE
NOTIFICATION_ID={notification_id}`, executed and committed on a connection of
its own.  Every caller in the module passes a python integer. -/
def delete_notification (notification_id : Int) (s : Store) : Store :=
  s.filter (fun r => !(idCol r == SqlVal.i notification_id))

/-- Model of `notification.get("notification_id", -1)` as used by
`database.save_notification`.  A non-integer value here would be interpolated
into the SQL text and break the statement; no caller in the module produces
one, so it falls back to the same `-1` default. -/
def dictId (n : List (String × SqlVal)) : Int :=
  match (n.lookup "notification_id").getD (SqlVal.i (-1)) with
  | SqlVal.i k => k
  | _ => -1

/-- The sqlite3 error text for a parameter-count mismatch: the INSERT in
`database.save_notification` has ten placeholders. -/
def bindMsg (k : Nat) : String :=
  "Incorrect number of bindings supplied. The current statement uses 10, and there are "
    ++ toString k ++ " supplied."

/-- Model of `database.save_notification`: first `delete_notification` (which commits on
its own connection), then `INSERT INTO KAP_NOTIFICATIONS (…ten columns…)
VALUES (?,?,?,?,?,?,?,?,?,?)` bound to `list(notification.values())`, committed
on a second connection.  sqlite3 raises on a binding-count mismatch; the
`except` arm turns any exception into the return value `(0, str(ex))`, while
success returns `(1, "ok")`. -/
def save_notification (n : List (String × SqlVal)) (s : Store) : Store × (Nat × String) :=
  let s1 := delete_notification (dictId n) s
  let vals := n.map Prod.snd
  if vals.length = 10 then (s1 ++ [vals], (1, "ok"))
  else (s1, (0, bindMsg vals.length))

/-- The sequence of committed store states produced by one
`database.save_notification` call: the delete commits inside
`delete_notification` (its own connection), and the insert commits on the
second connection only when the `execute` did not raise. -/
def save_notification_commits (n : List (String × SqlVal)) (s : Store) : List Store :=
  let s1 := delete_notification (dictId n) s
  let vals := n.map Prod.snd
  if vals.length = 10 then [s1, s1 ++ [vals]] else [s1]

/-- Result of `database.get_last_notification`: either the python int `-1`
(the sentinel assigned when `fetchall()` equals `[(None, None)]`) or the
fetched list of `(NOTIFICATION_ID, PUBLISH_DATE)` tuples. -/
inductive LastNotif where
  | intVal : Int → LastNotif
  | rows : List (SqlVal × SqlVal) → LastNotif
deriving DecidableEq, Repr

/-- Model of `database.get_last_notification`: `select NOTIFICATION_ID, PUBLISH_DATE
from KAP_NOTIFICATIONS where NOTIFICATION_ID = (select max(NOTIFICATION_ID)
from KAP_NOTIFICATIONS)`.  On an empty table the subquery yields NULL and the
comparison matches no row, so `fetchall()` returns `[]`; the
`ret == [(None, None)]` guard then replaces the result with `-1` only when the
fetched list is literally that value. -/
def get_last_notification (s : Store) : LastNotif :=
  let rows : Store :=
    match maxId s with
    | none => []
    | some m => s.filter (fun r => idCol r == SqlVal.i m)
  let pairs := rows.map (fun r => (idCol r, col r 2))
  if pairs = [(SqlVal.null, SqlVal.null)] then LastNotif.intVal (-1) else LastNotif.rows pairs

/-- Model of `database.get_missing_notifications`: the recursive CTE
`c(x)` enumerates `x = 1, 2, …, 1000000`; the derived table keeps
`CID = x + min_id` for `x < max_id - min_id`, and the left join keeps the
`CID`s not present in the table.  On an empty table the min/max subquery
yields NULLs and the comparison filters everything out.  The list order is
sqlite's evaluation order: ascending in `x`. -/
def get_missing_notifications (s : Store) : List Int :=
  match minId s, maxId s with
  | some m, some M =>
      ((((List.range' 1 1000000).map (fun x : Nat => (x : Int))).filter
          (fun x => decide (x < M - m))).map (fun x => x + m)).filter
        (fun c => !((idsOf s).contains c))
  | _, _ => []

/-- Column-name resolution for the interpolated `set {column_name}=?` in
`database.update_notification`; an unknown name is a sqlite error caught by
the `except` arm. -/
def colIndex (name : String) : Option Nat :=
  if name = "CODE" then some 0
  else if name = "NOTIFICATION_ID" then some 1
  else if name = "PUBLISH_DATE" then some 2
  else if name = "DISCLOSURE_TYPE" then some 3
  else if name = "YEAR" then some 4
  else if name = "PERIOD" then some 5
  else if name = "SUMMARY_INFO" then some 6
  else if name = "RELATED_COMPANIES" then some 7
  else if name = "EXPLANATIONS" then some 8
  else if name = "EXPLANATION_SUMMARY" then some 9
  else none

/-- Model of `database.update_notification`: `update KAP_NOTIFICATIONS set
{column_name}=? where NOTIFICATION_ID=?`, then commit.  An UPDATE that matches
no row is not an error in SQL, so the function returns `(1, "ok")` whether or
not the id is present. -/
def update_notification (notification_id : Int) (column_name : String) (value : SqlVal)
    (s : Store) : Store × (Nat × String) :=
  match colIndex column_name with
  | some k =>
      (s.map (fun r => if idCol r == SqlVal.i notification_id then r.set k value else r),
        (1, "ok"))
  | none => (s, (0, "no such column: " ++ column_name))

/-- Model of `database.get_notification`: `select * from KAP_NOTIFICATIONS where
NOTIFICATION_ID={notification_id}` — the matching rows in table order. -/
def get_notification (notification_id : Int) (s : Store) : List Row :=
  s.filter (fun r => idCol r == SqlVal.i notification_id)

end database

/-- The fields the page extractor produces from a well-formed status-200
document (HTML parsing itself is the out-of-scope Extractor collaborator).
Field names follow the keys of the dict built by `reader.get_notification`,
including the source's `disclosure_tpye` spelling. -/
structure Page where
  code : String
  publish_date : String
  disclosure_tpye : String
  year : String
  period : String
  summary : String
  related : String
  explanations : String
deriving DecidableEq, Repr

/-- Outcome of one `requests.get` for one notification id: either the call
raises (timeout, connection reset, DNS failure, …) or it returns a response
with a status code; for status 200 the response carries the extracted page. -/
inductive Fetch where
  | exc : Fetch
  | status : Nat → Page → Fetch

/-- A python value `reader.get_notification` could return on the default
(`return_soup=False`) path: `None`, an `{"error": …}` dict, or the record
dict.  `none` is listed because `reader.get_notifications` tests for it. -/
inductive PyNotif where
  | none : PyNotif
  | errorDict : String → PyNotif
  | record : List (String × SqlVal) → PyNotif
deriving DecidableEq, Repr

namespace reader

/-- Model of `reader.notification_initial_id` (class attribute, 2022/12/01). -/
def notification_initial_id : Int := 1083300

/-- The dict literal built by `reader.get_notification` on a status-200
response, in python insertion order.  It has nine keys: the
`explanation_summary` key documented in `database.save_notification`'s
docstring is not among them. -/
def retDict (id : Int) (p : Page) : List (String × SqlVal) :=
  [("code", SqlVal.s p.code),
   ("notification_id", SqlVal.i id),
   ("publish_date", SqlVal.s p.publish_date),
   ("disclosure_tpye", SqlVal.s p.disclosure_tpye),
   ("year", SqlVal.s p.year),
   ("period", SqlVal.s p.period),
   ("summary", SqlVal.s p.summary),
   ("related", SqlVal.s p.related),
   ("explanations", SqlVal.s p.explanations)]

/-- Model of `reader.get_notification` with the fetch outcome made explicit:
a raised request exception returns `{"error": "request error"}`; any
response with `status_code != 200` returns `{"error": "not found"}`; on 200
the record dict is built, `database.save_notification` is called with it —
its `(status, message)` return value is discarded — and the dict is
returned. -/
def get_notification_outcome (o : Fetch) (id : Int) (s : Store) : PyNotif × Store :=
  match o with
  | Fetch.exc => (PyNotif.errorDict "request error", s)
  | Fetch.status c p =>
      if c ≠ 200 then (PyNotif.errorDict "not found", s)
      else
        let ret := retDict id p
        let saved := database.save_notification ret s
        (PyNotif.record ret, saved.1)

/-- Model of `reader.get_notification(id)` driven by a per-id fetch stub. -/
def get_notification (stub : Int → Fetch) (id : Int) (s : Store) : PyNotif × Store :=
  get_notification_outcome (stub id) id s

/-- The `for i, id in enumerate(range(last+1, last+1+limit))` loop of
`reader.get_notifications`: fetch the id, then `if isinstance(notif,
type(None)): raise StopIteration`.  Returns the final store, the ids fetched
in order, and whether the loop stopped early via `StopIteration`. -/
def get_notifications_loop (stub : Int → Fetch) :
    Nat → Int → Store → List Int → Store × List Int × Bool
  | 0, _, s, acc => (s, acc.reverse, false)
  | k + 1, id, s, acc =>
      let step := get_notification stub id s
      let acc2 := id :: acc
      match step.1 with
      | PyNotif.none => (step.2, acc2.reverse, true)
      | _ => get_notifications_loop stub k (id + 1) step.2 acc2

/-- Model of `reader.get_notifications(limit)`: unpack
`self.db.get_last_notification()[0]` (an IndexError on an empty fetch list, a
TypeError on the `-1` sentinel), substitute `notification_initial_id` when the
unpacked id equals `-1`, then run the loop over
`range(last+1, last+1+limit)` — empty when `limit <= 0`. -/
def get_notifications (stub : Int → Fetch) (limit : Int) (s : Store) :
    Except String (Store × List Int × Bool) :=
  match database.get_last_notification s with
  | database.LastNotif.intVal _ =>
      Except.error "TypeError: int object is not subscriptable"
  | database.LastNotif.rows [] =>
      Except.error "IndexError: list index out of range"
  | database.LastNotif.rows (p :: _) =>
      match p.1 with
      | SqlVal.i last0 =>
          let last := if last0 = -1 then notification_initial_id else last0
          Except.ok (get_notifications_loop stub limit.toNat (last + 1) s [])
      | _ => Except.error "TypeError: unsupported operand"

/-- Model of `ret.get("error", "") == "request error"` on a python value. -/
def isReqError : PyNotif → Bool
  | PyNotif.errorDict m => m == "request error"
  | _ => false

/-- One progress-log record of `reader._refresh_all_notifications` for a
successfully processed id, `f"{i};{j};{t:.0f};" + ".;"` with the wall-clock
timestamp abstracted to `<t>`. -/
def logEntry (i : Nat) (j : Int) : String :=
  toString i ++ ";" ++ toString j ++ ";<t>;.;"

/-- The `for i, j in enumerate(range(start, stop))` loop of
`reader._refresh_all_notifications`.  The fetch stub takes the id and the
attempt number; the loop only ever issues attempt `0`, because on a
`"request error"` result the retry line `ret = kr.get_notification(j)`
evaluates the module-level name `kr`, which is bound nowhere in
`kap_reader.py`, so the first retry raises `NameError` and the job dies.
The in-memory log is appended to after the if/else; a raise inside the
while sub-loop therefore loses the current record. -/
def refresh_loop (stub : Int → Nat → Fetch) :
    Nat → Nat → Int → Store → List String → Store × List String × Option String
  | 0, _, _, s, log => (s, log.reverse, none)
  | k + 1, i, j, s, log =>
      let step := get_notification_outcome (stub j 0) j s
      if isReqError step.1 then
        (step.2, log.reverse, some "NameError: name kr is not defined")
      else refresh_loop stub k (i + 1) (j + 1) step.2 (logEntry i j :: log)

/-- Python `x or d` on an optional int: `None` and `0` are falsy. -/
def pyOrO (o : Option Int) (d : Option Int) : Option Int :=
  match o with
  | some v => if v = 0 then d else some v
  | none => d

/-- Model of `reader._refresh_all_notifications(start, stop)`: defaults come from
`select min(NOTIFICATION_ID), min(PUBLISH_DATE), count(*)` — `start or min`,
`stop or min + count + 1` — and `range(None, …)` raises when the table is
empty and a default is needed. -/
def refresh_all_notifications (stub : Int → Nat → Fetch) (start stop : Option Int)
    (s : Store) : Store × List String × Option String :=
  let minv := minId s
  let cnt : Int := s.length
  let startv := pyOrO start minv
  let stopv := pyOrO stop (match minv with
    | some m => some (m + cnt + 1)
    | none => none)
  match startv, stopv with
  | some a, some b => refresh_loop stub (b - a).toNat 0 a s []
  | _, _ => (s, [], some "TypeError: NoneType")

/-- Model of `EXPLANATION_SUMMARY is null` test on a row. -/
def nullSummary (r : Row) : Bool := col r 9 == SqlVal.null

/-- Sort key for `order by NOTIFICATION_ID desc`; sqlite sorts NULLs (and any
non-integer id) before integers, which with the module's positive ids means
last in descending order, matching the `0` default. -/
def rowIdKey (r : Row) : Int :=
  match idCol r with
  | SqlVal.i n => n
  | _ => 0

/-- The candidate rows of `reader.save_notification_summaries`:
`select * from KAP_NOTIFICATIONS where EXPLANATION_SUMMARY is null
order by NOTIFICATION_ID desc LIMIT top_n`. -/
def missing_summary_rows (top_n : Nat) (s : Store) : List Row :=
  ((s.filter nullSummary).insertionSort (fun a b => rowIdKey b ≤ rowIdKey a)).take top_n

/-- Model of `int(r[-1].split(";")[-1])` on one stored `EXPLANATION_SUMMARY` value:
a ValueError when the last `;`-separated piece is not an integer literal, an
AttributeError when the stored value is not text. -/
def tokenOf (v : SqlVal) : Except String Int :=
  match v with
  | SqlVal.s str =>
      match ((str.split (fun c => c == ';')).getLastD "").toInt? with
      | some t => Except.ok t
      | none => Except.error "ValueError: invalid literal for int"
  | SqlVal.i _ => Except.error "AttributeError: int object has no attribute split"
  | SqlVal.null => Except.error "AttributeError: NoneType object has no attribute split"

/-- The token-statistics readout executed every 100th candidate: read all
rows with a non-null `EXPLANATION_SUMMARY`, parse the trailing token count of
each, then compute `sum(tokens)/len(tokens)` — a ZeroDivisionError when no
row qualifies.  Only the possible exceptions matter to the state. -/
def tokenStats (s : Store) : Except String Unit :=
  let rows := s.filter (fun r => !(nullSummary r))
  match rows.mapM (fun r => tokenOf (col r 9)) with
  | Except.error e => Except.error e
  | Except.ok toks =>
      if toks.length = 0 then Except.error "ZeroDivisionError: division by zero"
      else Except.ok ()

/-- Model of `reader.save_notification_summary(notification_id)`: read the row
(`notification[0]["data"][0][-2]` raises IndexError when the id is absent),
summarize `explanation[:4097]` through the stub, and on success update
`EXPLANATION_SUMMARY` to `f"{summary};{tokens}"`.  The `try` arm catches the
TypeError raised by slicing a non-text explanation and any summarization
timeout or service error (`F` returning `none`), leaving the row unchanged.
Returns the new store and the update event, if any, as `(id, stored value)`. -/
def save_notification_summary (F : String → Option (String × Nat)) (idv : SqlVal)
    (s : Store) : Except String (Store × Option (SqlVal × SqlVal)) :=
  match idv with
  | SqlVal.i nid =>
      match database.get_notification nid s with
      | [] => Except.error "IndexError: list index out of range"
      | row :: _ =>
          match col row 8 with
          | SqlVal.s e =>
              match F (e.take 4097) with
              | some st =>
                  let v := SqlVal.s (st.1 ++ ";" ++ toString st.2)
                  Except.ok
                    ((database.update_notification nid "EXPLANATION_SUMMARY" v s).1,
                      some (SqlVal.i nid, v))
              | none => Except.ok (s, none)
          | _ => Except.ok (s, none)
  | _ => Except.error "OperationalError: unrecognized token"

/-- The candidate loop of `reader.save_notification_summaries`: for the `i`-th
candidate id run `save_notification_summary`, then, when `i % 100 == 0 and
i > 0`, run the token-statistics readout; an uncaught exception from either
ends the run.  Returns the final store, the update events in order, and the
uncaught exception, if any. -/
def summariesLoop (F : String → Option (String × Nat)) :
    List SqlVal → Nat → Store → List (SqlVal × SqlVal) →
      Store × List (SqlVal × SqlVal) × Option String
  | [], _, s, evs => (s, evs.reverse, none)
  | idv :: rest, i, s, evs =>
      match save_notification_summary F idv s with
      | Except.error e => (s, evs.reverse, some e)
      | Except.ok res =>
          let evs2 := match res.2 with
            | some ev => ev :: evs
            | none => evs
          if i % 100 == 0 && decide (0 < i) then
            match tokenStats res.1 with
            | Except.error e => (res.1, evs2.reverse, some e)
            | Except.ok _ => summariesLoop F rest (i + 1) res.1 evs2
          else summariesLoop F rest (i + 1) res.1 evs2

/-- Model of `reader.save_notification_summaries(top_n)`: extract `n[1]` from each
candidate row and run the loop. -/
def save_notification_summaries (F : String → Option (String × Nat)) (top_n : Nat)
    (s : Store) : Store × List (SqlVal × SqlVal) × Option String :=
  summariesLoop F ((missing_summary_rows top_n s).map idCol) 0 s []

end reader

/-! ### Concrete fixtures used by the closed theorems -/

/-- A well-formed extracted page. -/
def pgA : Page :=
  { code := "CODE", publish_date := "2023-01-01", disclosure_tpye := "ODA",
    year := "2023", period := "P", summary := "sum", related := "[]",
    explanations := "expl" }

/-- A fully populated stored row (ten columns, integer id, null
`EXPLANATION_SUMMARY`). -/
def mkRow (n : Int) : Row :=
  [SqlVal.s "CODE", SqlVal.i n, SqlVal.s "2023-01-01", SqlVal.s "ODA",
   SqlVal.s "2023", SqlVal.s "P", SqlVal.s "sum", SqlVal.s "[]",
   SqlVal.s "expl", SqlVal.null]

/-- Fetch stub of the Sequencer-termination scenario: `Found` (a 200 page)
for ids up to `110`, `NotFound` (a 404 response) from `111` on. -/
def stubC1 : Int → Fetch :=
  fun id => if id ≤ 110 then Fetch.status 200 pgA else Fetch.status 404 pgA

/-- Fetch stub of the fail-fast scenario: a request exception at id `105`,
`Found` everywhere else. -/
def stubC5 : Int → Fetch :=
  fun id => if id == 105 then Fetch.exc else Fetch.status 200 pgA

/-- Fetch stub of the Refresher scenario: a request exception on the first
three attempts for id `7`, `Found` afterwards and everywhere else. -/
def stubC4 : Int → Nat → Fetch :=
  fun j n => if j == 7 && n < 3 then Fetch.exc else Fetch.status 200 pgA

/-- A fetch stub that always succeeds. -/
def stubOk : Int → Fetch := fun _ => Fetch.status 200 pgA

/-- A stored row whose `EXPLANATIONS` and `EXPLANATION_SUMMARY` are both
NULL. -/
def rowNullExp : Row :=
  [SqlVal.s "CODE", SqlVal.i 5, SqlVal.s "d", SqlVal.s "t", SqlVal.s "y",
   SqlVal.s "p", SqlVal.s "s", SqlVal.s "r", SqlVal.null, SqlVal.null]

/-- A summarization stub that always succeeds. -/
def alwaysSummarize : String → Option (String × Nat) := fun _ => some ("S", 3)

/-- The two-row store whose id span exceeds the gap query's CTE bound. -/
def wideStore : Store := [mkRow 1, mkRow 1000003]

/-- The store holding ids `{5, 6, 9, 10, 15}`. -/
def gapStore : Store := [mkRow 5, mkRow 6, mkRow 9, mkRow 10, mkRow 15]

/-- The ten-key notification dict documented in
`database.save_notification`'s docstring, with the empty-string
`explanation_summary` the docstring describes. -/
def fullDict (nid : Int) : List (String × SqlVal) :=
  reader.retDict nid pgA ++ [("explanation_summary", SqlVal.s "")]

/-- The integer sequence `range(a, a + n)` of python's `range`. -/
def intRange (a : Int) : Nat → List Int
  | 0 => []
  | n + 1 => a :: intRange (a + 1) n

/-- The value one enrichment update stores for a row with text explanation
`e`: the stub's summary of `e[:4097]`, then `;`, then its token count. -/
def enrichVal (f : String → String × Nat) (v : SqlVal) : SqlVal :=
  match v with
  | SqlVal.s e =>
      SqlVal.s ((f (e.take 4097)).1 ++ ";" ++ toString (f (e.take 4097)).2)
  | _ => SqlVal.null

/-- A row after its enrichment update. -/
def enrichRow (f : String → String × Nat) (r : Row) : Row :=
  r.set 9 (enrichVal f (col r 8))

/-- A row after the enrichment run, parameterized by the set of candidate
ids: candidates get their update, other rows stay. -/
def enrichIf (f : String → String × Nat) (ids : List SqlVal) (r : Row) : Row :=
  if idCol r ∈ ids then enrichRow f r else r

/-! ### Claim theorems -/

/-- Claim C1 (code bug): the forward crawler does not terminate at the first
`NotFound`.  With the stub returning `Found` for `101..110` and `NotFound`
from `111` on, over a store whose frontier is `100`: with the `-1`
"no limit" argument the `range` is empty and nothing is processed, and with
limit `20` the loop fetches all of `101..120` — sailing past the `NotFound`
at `111` with the early-stop flag `false` — because `get_notification`
returns `{"error": "not found"}`, never the `None` the loop's
`isinstance(notif, type(None))` check tests for. -/
theorem crawler_ignores_not_found :
    reader.get_notifications stubC1 (-1) [mkRow 100] =
      Except.ok ([mkRow 100], [], false) ∧
    reader.get_notifications stubC1 20 [mkRow 100] =
      Except.ok ([mkRow 100],
        [101, 102, 103, 104, 105, 106, 107, 108, 109, 110,
         111, 112, 113, 114, 115, 116, 117, 118, 119, 120], false) := by
  constructor <;> rfl

/-- Claim C2 (code bug): a successful fetch does not leave the record in the
store, and the storage failure is not reported.  On a 200 response for id
`101` over a store already holding a row for `101`, `get_notification`
returns the record dict, yet the resulting store is empty: the dict has nine
entries, `database.save_notification` deletes the existing row on its own
committed transaction, the ten-placeholder INSERT then fails with a
binding-count error, and `get_notification` discards the `(0, message)`
status it gets back. -/
theorem fetch_success_not_persisted :
    reader.get_notification_outcome (Fetch.status 200 pgA) 101 [mkRow 101] =
      (PyNotif.record (reader.retDict 101 pgA), []) ∧
    (reader.retDict 101 pgA).length = 9 ∧
    database.save_notification (reader.retDict 101 pgA) [mkRow 101] =
      ([], (0, database.bindMsg 9)) := by
  refine ⟨rfl, rfl, rfl⟩

/-- Claim C4 (code bug): the refresher's retry sub-loop crashes instead of
retrying.  With the stub returning a request exception for id `7` on the
first three attempts and `Found` afterwards, the run over `[7, 8)` dies with
`NameError` on its first retry — the retry line reads the unbound module
name `kr` — so id `7` is never persisted and no retry is recorded in the
progress log. -/
theorem refresher_retry_nameerror :
    reader.refresh_all_notifications stubC4 (some 7) (some 8) [] =
      ([], [], some "NameError: name kr is not defined") := by
  rfl

/-- Claim C7 (code bug): over an empty store the crawler does not start at
`notification_initial_id + 1`; it crashes.  `database.get_last_notification`
fetches the empty list (its `[(None, None)]` sentinel never matches), and
`reader.get_notifications` raises `IndexError` when indexing `[0]` into it. -/
theorem crawler_empty_store_error :
    database.get_last_notification ([] : Store) = database.LastNotif.rows [] ∧
    reader.get_notifications stubOk 5 ([] : Store) =
      Except.error "IndexError: list index out of range" := by
  refine ⟨rfl, rfl⟩

/-- Claim C3, counterexample: a failure between the delete and the insert of
`database.save_notification` leaves the old record removed and the new
record absent, so the upsert is not one transaction.  Saving the nine-entry
dict `reader.get_notification` builds, over a store holding a row for the
same id `5`, commits the delete (the only commit: the committed-state list
is `[[]]`), then fails the insert with the binding-count error, ending with
an empty store. -/
theorem upsert_single_transaction_refuted :
    database.save_notification (reader.retDict 5 pgA) [mkRow 5] =
      ([], (0, database.bindMsg 9)) ∧
    database.save_notification_commits (reader.retDict 5 pgA) [mkRow 5] = [[]] ∧
    mkRow 5 ∈ ([mkRow 5] : Store) := by
  refine ⟨rfl, rfl, List.mem_singleton.2 rfl⟩

/-- Claim C5, counterexample: with `Found` for `101..104`, a request
exception at `105` and `Found` afterwards, the crawler over a store with
frontier `100` and limit `10` does not terminate at `105` and surfaces no
error: it fetches all of `101..110` and returns normally, the transient
error dict being ignored by the loop. -/
theorem crawler_transient_counterexample :
    reader.get_notifications stubC5 10 [mkRow 100] =
      Except.ok ([mkRow 100],
        [101, 102, 103, 104, 105, 106, 107, 108, 109, 110], false) ∧
    ([101, 102, 103, 104, 105, 106, 107, 108, 109, 110] : List Int) ≠
      [101, 102, 103, 104] := by
  refine ⟨rfl, by decide⟩

/-- Claim C8, counterexample: an HTTP 500 server-error response is classified
as the terminal `{"error": "not found"}` outcome, not as the transient
`{"error": "request error"}` one — `get_notification` only distinguishes
"raised" from "status != 200". -/
theorem fetch_5xx_counterexample :
    reader.get_notification_outcome (Fetch.status 500 pgA) 42 [] =
      (PyNotif.errorDict "not found", []) ∧
    PyNotif.errorDict "not found" ≠ PyNotif.errorDict "request error" := by
  refine ⟨rfl, by decide⟩

/-- Claim C9, counterexample: updating the enrichment field of an id absent
from the store reports success.  Over the empty store,
`database.update_notification` matches no row and still returns
`(1, "ok")` — there is no not-found failure. -/
theorem update_absent_counterexample :
    database.update_notification 5 "EXPLANATION_SUMMARY" (SqlVal.s "x") [] =
      ([], (1, "ok")) := by
  rfl

/-- Claim C10, counterexample: the enrichment batch is not idempotent over
every store even though the summarization stub always succeeds.  Over a
store whose single row has a NULL `EXPLANATIONS` and a NULL
`EXPLANATION_SUMMARY`, the candidate is selected but slicing its NULL
explanation raises a TypeError that the `except` arm swallows: the run
performs no update, and a second run finds the same non-empty candidate
list instead of zero candidates. -/
theorem enricher_skips_null_explanation :
    reader.save_notification_summaries alwaysSummarize 10 [rowNullExp] =
      ([rowNullExp], [], none) ∧
    reader.missing_summary_rows 10
        (reader.save_notification_summaries alwaysSummarize 10 [rowNullExp]).1 =
      [rowNullExp] ∧
    reader.nullSummary rowNullExp = true := by
  refine ⟨rfl, rfl, rfl⟩

/-- Claim C8 as amended: request exceptions (timeouts, connection resets, DNS
failures) are reported as the transient `{"error": "request error"}`
outcome, while every response whose status differs from 200 — the clean
not-found response, but also any 5xx server error — is reported as the
terminal `{"error": "not found"}` outcome; in both cases the store is left
untouched. -/
theorem fetch_classification_spec (id : Int) (s : Store) (c : Nat) (p : Page) :
    reader.get_notification_outcome Fetch.exc id s =
      (PyNotif.errorDict "request error", s) ∧
    (c ≠ 200 →
      reader.get_notification_outcome (Fetch.status c p) id s =
        (PyNotif.errorDict "not found", s)) := by
  refine ⟨rfl, fun h => ?_⟩
  simp [reader.get_notification_outcome, h]

/-- Witness for `fetch_classification_spec` at id `1`, the empty store and
status `503`. -/
theorem fetch_classification_witness :
    reader.get_notification_outcome Fetch.exc 1 [] =
      (PyNotif.errorDict "request error", []) ∧
    reader.get_notification_outcome (Fetch.status 503 pgA) 1 [] =
      (PyNotif.errorDict "not found", []) :=
  ⟨(fetch_classification_spec 1 [] 503 pgA).1,
   (fetch_classification_spec 1 [] 503 pgA).2 (by decide)⟩

/-- Lemma: `getD` through `map`, inside the list. -/
theorem map_getD_lt {α β : Type} (f : α → β) (dA : α) (dB : β) :
    ∀ (l : List α) (i : Nat), i < l.length → (l.map f).getD i dB = f (l.getD i dA) := by
  intro l
  induction l with
  | nil => intro i h; simp at h
  | cons a t ih =>
      intro i h
      cases i with
      | zero => rfl
      | succ j => exact ih j (Nat.lt_of_succ_lt_succ h)

/-- Lemma: `getD` at an index just written by `set`. -/
theorem getD_set_self {α : Type} (d v : α) :
    ∀ (r : List α) (k : Nat), k < r.length → (r.set k v).getD k d = v := by
  intro r
  induction r with
  | nil => intro k h; simp at h
  | cons a t ih =>
      intro k h
      cases k with
      | zero => rfl
      | succ j => exact ih j (Nat.lt_of_succ_lt_succ h)

/-- Lemma: `getD` at an index other than the one written by `set`. -/
theorem getD_set_ne {α : Type} (d v : α) :
    ∀ (r : List α) (k j : Nat), k ≠ j → (r.set k v).getD j d = r.getD j d := by
  intro r
  induction r with
  | nil => intro k j _; rfl
  | cons a t ih =>
      intro k j h
      cases k with
      | zero =>
          cases j with
          | zero => exact absurd rfl h
          | succ j2 => rfl
      | succ k2 =>
          cases j with
          | zero => rfl
          | succ j2 => exact ih k2 j2 (fun hh => h (by rw [hh]))

/-- Claim C9 as amended: `database.update_notification` on the enrichment
field always reports success `(1, "ok")` — an absent id is not a failure, the
UPDATE simply matches no row and leaves the store unchanged — and for every
row whose `NOTIFICATION_ID` matches, exactly the `EXPLANATION_SUMMARY` column
(index 9) is replaced by the new value, all other rows being untouched. -/
theorem update_notification_spec (s : Store) (nid : Int) (v : SqlVal) :
    (database.update_notification nid "EXPLANATION_SUMMARY" v s).2 = (1, "ok") ∧
    ((∀ r ∈ s, idCol r ≠ SqlVal.i nid) →
      (database.update_notification nid "EXPLANATION_SUMMARY" v s).1 = s) ∧
    (∀ i, i < s.length →
      (idCol (s.getD i []) = SqlVal.i nid →
        (database.update_notification nid "EXPLANATION_SUMMARY" v s).1.getD i [] =
          (s.getD i []).set 9 v) ∧
      (idCol (s.getD i []) ≠ SqlVal.i nid →
        (database.update_notification nid "EXPLANATION_SUMMARY" v s).1.getD i [] =
          s.getD i [])) := by
  have hcol : database.colIndex "EXPLANATION_SUMMARY" = some 9 := by decide
  refine ⟨by simp [database.update_notification, hcol], ?_, ?_⟩
  · intro habs
    simp only [database.update_notification, hcol]
    have : ∀ r ∈ s, (if idCol r == SqlVal.i nid then r.set 9 v else r) = r := by
      intro r hr
      have : ¬(idCol r == SqlVal.i nid) = true := by
        simp only [beq_iff_eq]
        exact habs r hr
      simp [this]
    calc s.map (fun r => if idCol r == SqlVal.i nid then r.set 9 v else r)
        = s.map id := List.map_congr_left this
      _ = s := List.map_id s
  · intro i hi
    simp only [database.update_notification, hcol]
    rw [map_getD_lt _ ([] : Row) ([] : Row) s i hi]
    constructor
    · intro hmatch
      have hb : (idCol (s.getD i []) == SqlVal.i nid) = true := beq_iff_eq.2 hmatch
      rw [if_pos hb]
    · intro hmatch
      have hb : (idCol (s.getD i []) == SqlVal.i nid) = false :=
        beq_eq_false_iff_ne.2 hmatch
      rw [if_neg (by rw [hb]; exact Bool.false_ne_true)]

/-- Witness for `update_notification_spec`: over the empty store the update
of id `5` reports `(1, "ok")` and changes nothing; over a one-row store the
matching row gets its column 9 replaced. -/
theorem update_notification_witness :
    (database.update_notification 5 "EXPLANATION_SUMMARY" (SqlVal.s "x") []).2 =
      (1, "ok") ∧
    (database.update_notification 5 "EXPLANATION_SUMMARY" (SqlVal.s "x") []).1 = [] ∧
    (database.update_notification 7 "EXPLANATION_SUMMARY" (SqlVal.s "x;3")
        [mkRow 7]).1.getD 0 [] = (mkRow 7).set 9 (SqlVal.s "x;3") :=
  ⟨(update_notification_spec [] 5 (SqlVal.s "x")).1,
   (update_notification_spec [] 5 (SqlVal.s "x")).2.1 (by intro r hr; simp at hr),
   ((update_notification_spec [mkRow 7] 7 (SqlVal.s "x;3")).2.2 0 (by decide)).1
     (by decide)⟩

/-- After `database.delete_notification d`, no remaining row carries id `d`. -/
theorem delete_notification_id_ne (d : Int) (s : Store) :
    ∀ r ∈ database.delete_notification d s, idCol r ≠ SqlVal.i d := by
  intro r hr
  have h2 := List.mem_filter.1 hr
  have h3 : (idCol r == SqlVal.i d) = false := by
    cases hEq : (idCol r == SqlVal.i d) with
    | false => rfl
    | true => rw [hEq] at h2; simp at h2
  exact beq_eq_false_iff_ne.1 h3

/-- Claim C3 as amended: `database.save_notification` runs its delete and its
insert as two separately committed transactions, not one.  The first
committed state is always the post-delete store, which holds no row with the
notification's id — so a failure of the insert (as with the nine-entry dict
the fetcher builds) or a crash between the two commits leaves the old record
removed and the new record absent.  When the insert does succeed the second
commit appends the new row, and, provided the dict's second value is its
`notification_id` (the documented layout), id-uniqueness of the store is
preserved. -/
theorem save_notification_txn_spec (n : List (String × SqlVal)) (s : Store) :
    (database.save_notification_commits n s).head? =
      some (database.delete_notification (database.dictId n) s) ∧
    (∀ r ∈ database.delete_notification (database.dictId n) s,
        idCol r ≠ SqlVal.i (database.dictId n)) ∧
    ((n.map Prod.snd).length ≠ 10 →
        database.save_notification n s =
          (database.delete_notification (database.dictId n) s,
            (0, database.bindMsg (n.map Prod.snd).length)) ∧
        database.save_notification_commits n s =
          [database.delete_notification (database.dictId n) s]) ∧
    ((n.map Prod.snd).length = 10 →
        database.save_notification n s =
          (database.delete_notification (database.dictId n) s ++ [n.map Prod.snd],
            (1, "ok")) ∧
        database.save_notification_commits n s =
          [database.delete_notification (database.dictId n) s,
            database.delete_notification (database.dictId n) s ++ [n.map Prod.snd]]) ∧
    ((s.map idCol).Nodup → (n.map Prod.snd).length = 10 →
        idCol (n.map Prod.snd) = SqlVal.i (database.dictId n) →
        ((database.save_notification n s).1.map idCol).Nodup) := by
  refine ⟨?_, delete_notification_id_ne _ s, ?_, ?_, ?_⟩
  · by_cases h : n.length = 10 <;>
      simp [database.save_notification_commits, h]
  · intro h
    rw [List.length_map] at h
    constructor <;>
      simp [database.save_notification, database.save_notification_commits, h]
  · intro h
    rw [List.length_map] at h
    constructor <;>
      simp [database.save_notification, database.save_notification_commits, h]
  · intro hnd h10 hidv
    rw [List.length_map] at h10
    have hfin : (database.save_notification n s).1 =
        database.delete_notification (database.dictId n) s ++ [n.map Prod.snd] := by
      simp [database.save_notification, h10]
    rw [hfin, List.map_append]
    apply List.Nodup.append
    · have hsub : (database.delete_notification (database.dictId n) s).Sublist s :=
        List.filter_sublist _
      exact hnd.sublist (hsub.map idCol)
    · simp
    · intro a ha hb
      simp only [List.map_cons, List.map_nil, List.mem_singleton] at hb
      rw [hb, hidv] at ha
      obtain ⟨r, hr, hr2⟩ := List.mem_map.1 ha
      exact delete_notification_id_ne (database.dictId n) s r hr hr2

/-- Witness for `save_notification_txn_spec`: saving the documented ten-key
dict for id `5` over a one-row store for id `7` succeeds, and the resulting
store still has pairwise distinct ids. -/
theorem save_notification_txn_witness :
    database.save_notification (fullDict 5) [mkRow 7] =
      (database.delete_notification (database.dictId (fullDict 5)) [mkRow 7] ++
        [(fullDict 5).map Prod.snd], (1, "ok")) ∧
    ((database.save_notification (fullDict 5) [mkRow 7]).1.map idCol).Nodup :=
  ⟨((save_notification_txn_spec (fullDict 5) [mkRow 7]).2.2.2.1 (by decide)).1,
   (save_notification_txn_spec (fullDict 5) [mkRow 7]).2.2.2.2 (by decide)
     (by decide) (by decide)⟩

theorem mem_intRange : ∀ (n : Nat) (a c : Int), c ∈ intRange a n ↔ a ≤ c ∧ c < a + n := by
  intro n
  induction n with
  | zero =>
      intro a c
      rw [intRange]
      constructor
      · intro h; exact absurd h (List.not_mem_nil c)
      · intro h; exact absurd h (by omega)
  | succ m ih =>
      intro a c
      rw [intRange, List.mem_cons, ih (a + 1) c]
      omega

theorem nodup_intRange : ∀ (n : Nat) (a : Int), (intRange a n).Nodup := by
  intro n
  induction n with
  | zero => intro a; simp [intRange]
  | succ m ih =>
      intro a
      rw [intRange, List.nodup_cons]
      refine ⟨?_, ih (a + 1)⟩
      rw [mem_intRange]
      omega

/-- The default-path `reader.get_notification` never returns python `None`:
every arm yields a dict. -/
theorem get_notification_outcome_ne_none (o : Fetch) (id : Int) (s : Store) :
    (reader.get_notification_outcome o id s).1 ≠ PyNotif.none := by
  cases o with
  | exc => simp [reader.get_notification_outcome]
  | status c p =>
      by_cases h : c ≠ 200 <;> simp [reader.get_notification_outcome, h]

/-- The crawler loop consumes its whole `range` whatever the fetch outcomes:
since `get_notification` never returns `None`, the `StopIteration` branch is
dead and the early-stop flag stays `false`. -/
theorem get_notifications_loop_spec (stub : Int → Fetch) :
    ∀ (k : Nat) (id : Int) (s : Store) (acc : List Int),
      ∃ s2, reader.get_notifications_loop stub k id s acc =
        (s2, acc.reverse ++ intRange id k, false) := by
  intro k
  induction k with
  | zero =>
      intro id s acc
      exact ⟨s, by simp [reader.get_notifications_loop, intRange]⟩
  | succ m ih =>
      intro id s acc
      obtain ⟨s2, h2⟩ := ih (id + 1) (reader.get_notification stub id s).2 (id :: acc)
      have hne := get_notification_outcome_ne_none (stub id) id s
      refine ⟨s2, ?_⟩
      have haux : reader.get_notifications_loop stub (m + 1) id s acc =
          reader.get_notifications_loop stub m (id + 1)
            (reader.get_notification stub id s).2 (id :: acc) := by
        cases hstep : (reader.get_notification stub id s).1 with
        | none => exact absurd hstep hne
        | errorDict msg => simp [reader.get_notifications_loop, hstep]
        | record dict => simp [reader.get_notifications_loop, hstep]
      rw [haux, h2]
      simp [intRange, List.reverse_cons, List.append_assoc]

/-- Claim C5 as amended: the forward crawler does not retry a transiently
failing id — each id in `range(last+1, last+1+limit)` is fetched exactly once
(the fetched list has no duplicates) — but it also neither terminates at the
failing id nor surfaces the error: whatever outcomes the fetch stub
produces, the crawler consumes the full range, returns normally, and never
sets its early-stop flag. -/
theorem crawler_full_range_spec (stub : Int → Fetch) (s : Store) (m : Int) (d : SqlVal)
    (rest : List (SqlVal × SqlVal)) (limit : Int)
    (hlast : database.get_last_notification s =
      database.LastNotif.rows ((SqlVal.i m, d) :: rest))
    (hm : m ≠ -1) :
    ∃ s2, reader.get_notifications stub limit s =
        Except.ok (s2, intRange (m + 1) limit.toNat, false) ∧
      (intRange (m + 1) limit.toNat).Nodup := by
  obtain ⟨s2, h2⟩ := get_notifications_loop_spec stub limit.toNat (m + 1) s []
  refine ⟨s2, ?_, nodup_intRange _ _⟩
  simp [reader.get_notifications, hlast, hm, h2]

/-- Witness for `crawler_full_range_spec`: a store with frontier `100` and an
always-succeeding stub, limit `3`. -/
theorem crawler_full_range_witness :
    ∃ s2, reader.get_notifications stubOk 3 [mkRow 100] =
        Except.ok (s2, intRange 101 (3 : Int).toNat, false) ∧
      (intRange 101 (3 : Int).toNat).Nodup :=
  crawler_full_range_spec stubOk [mkRow 100] 100 (SqlVal.s "2023-01-01") [] 3
    (by decide) (by decide)

/-- Membership in the gap query's result, unfolded to the CTE bounds. -/
theorem mem_get_missing (s : Store) (m M : Int) (hm : minId s = some m)
    (hM : maxId s = some M) (c : Int) :
    c ∈ database.get_missing_notifications s ↔
      ((∃ x : Int, (1 ≤ x ∧ x ≤ 1000000) ∧ x < M - m ∧ x + m = c) ∧
        c ∉ idsOf s) := by
  unfold database.get_missing_notifications
  rw [hm, hM]
  simp only [List.mem_filter, List.mem_map, List.mem_range'_1, Bool.not_eq_true,
    decide_eq_true_eq, decide_eq_false_iff_not]
  constructor
  · rintro ⟨⟨a, ⟨⟨x, ⟨hx1, hx2⟩, rfl⟩, hlt⟩, heq⟩, hn⟩
    refine ⟨⟨(x : Int), ⟨by omega, by omega⟩, hlt, heq⟩, ?_⟩
    simpa using hn
  · rintro ⟨⟨x, ⟨hx1, hx2⟩, hlt, heq⟩, hn⟩
    refine ⟨⟨x, ⟨⟨x.toNat, ⟨by omega, by omega⟩, by omega⟩, hlt⟩, heq⟩, ?_⟩
    simpa using hn

/-- Claim C6, counterexample: on the store `{1, 1000003}` the id `1000002`
lies strictly inside the stored range and is absent from the store, yet the
gap query does not return it — the recursive CTE enumerates only one million
offsets, so the query's output unioned with the stored ids falls short of
the interval `[1, 1000003]`. -/
theorem gap_finder_cap_counterexample :
    minId wideStore = some 1 ∧ maxId wideStore = some 1000003 ∧
    (1 : Int) ≤ 1000002 ∧ (1000002 : Int) ≤ 1000003 ∧
    (1000002 : Int) ∉ idsOf wideStore ∧
    (1000002 : Int) ∉ database.get_missing_notifications wideStore := by
  refine ⟨by decide, by decide, by decide, by decide, by decide, ?_⟩
  intro hmem
  rw [mem_get_missing wideStore 1 1000003 (by decide) (by decide)] at hmem
  obtain ⟨⟨x, hx, hlt, heq⟩, hnotin⟩ := hmem
  omega

/-- Claim C6 as amended: whenever the stored id span `M - m` stays within the
CTE's one-million-offset budget, the gap query returns exactly the ids
strictly between the minimum and the maximum that are absent from the store,
in strictly increasing order (hence without duplicates); together with the
stored ids this covers the whole interval `[m, M]`.  Beyond that span the
enumeration is truncated (see the counterexample). -/
theorem gap_finder_spec (s : Store) (m M : Int) (hm : minId s = some m)
    (hM : maxId s = some M) (hspan : M - m ≤ 1000001) :
    (∀ c : Int, c ∈ database.get_missing_notifications s ↔
        (m < c ∧ c < M ∧ c ∉ idsOf s)) ∧
    (database.get_missing_notifications s).Pairwise (· < ·) := by
  constructor
  · intro c
    rw [mem_get_missing s m M hm hM c]
    constructor
    · rintro ⟨⟨x, hx, hlt, heq⟩, hnotin⟩
      exact ⟨by omega, by omega, hnotin⟩
    · rintro ⟨h1, h2, h3⟩
      exact ⟨⟨c - m, ⟨by omega, by omega⟩, by omega, by omega⟩, h3⟩
  · unfold database.get_missing_notifications
    rw [hm, hM]
    refine List.Pairwise.filter _ ?_
    rw [List.pairwise_map]
    refine List.Pairwise.filter _ ?_
    rw [List.pairwise_map]
    refine List.Pairwise.imp ?_ (List.pairwise_lt_range' 1 1000000)
    intro a b hab
    omega

/-- Witness for `gap_finder_spec` on the store `{5, 6, 9, 10, 15}`:
membership of `7` is characterized and the output is sorted. -/
theorem gap_finder_witness :
    ((7 : Int) ∈ database.get_missing_notifications gapStore ↔
      ((5 : Int) < 7 ∧ (7 : Int) < 15 ∧ (7 : Int) ∉ idsOf gapStore)) ∧
    (database.get_missing_notifications gapStore).Pairwise (· < ·) :=
  ⟨(gap_finder_spec gapStore 5 15 (by decide) (by decide) (by decide)).1 7,
   (gap_finder_spec gapStore 5 15 (by decide) (by decide) (by decide)).2⟩

/-- In a store with pairwise distinct ids, the lookup of a present id returns
exactly its one row. -/
theorem filter_idCol_unique :
    ∀ (t : Store) (x : SqlVal) (r0 : Row), (t.map idCol).Nodup → r0 ∈ t →
      idCol r0 = x → t.filter (fun r => idCol r == x) = [r0] := by
  intro t
  induction t with
  | nil => intro x r0 _ h0; exact absurd h0 (List.not_mem_nil r0)
  | cons a t ih =>
      intro x r0 hnd h0 hid
      rw [List.map_cons, List.nodup_cons] at hnd
      rcases List.mem_cons.1 h0 with h0a | h0t
      · subst h0a
        have hkeep : (idCol r0 == x) = true := beq_iff_eq.2 hid
        have hrest : t.filter (fun r => idCol r == x) = [] := by
          rw [List.filter_eq_nil_iff]
          intro b hb
          intro hbeq
          apply hnd.1
          rw [← hid] at hbeq
          have : idCol b = idCol r0 := beq_iff_eq.1 hbeq
          rw [← this]
          exact List.mem_map_of_mem idCol hb
        rw [List.filter_cons, hkeep]
        simpa using hrest
      · have hskip : (idCol a == x) = false := by
          apply beq_eq_false_iff_ne.2
          intro hEq
          apply hnd.1
          rw [hEq, ← hid]
          exact List.mem_map_of_mem idCol h0t
        rw [List.filter_cons, hskip]
        simpa using ih x r0 hnd.2 h0t hid

/-- The enrichment UPDATE, written as a map over the store. -/
theorem update_expl_eq (nid : Int) (v : SqlVal) (t : Store) :
    (database.update_notification nid "EXPLANATION_SUMMARY" v t).1 =
      t.map (fun r => if idCol r == SqlVal.i nid then r.set 9 v else r) := by
  have hcol : database.colIndex "EXPLANATION_SUMMARY" = some 9 := by decide
  simp [database.update_notification, hcol]

/-- The enrichment UPDATE leaves every row's id column unchanged. -/
theorem idCol_updOne (nid : Int) (v : SqlVal) (r : Row) :
    idCol (if idCol r == SqlVal.i nid then r.set 9 v else r) = idCol r := by
  by_cases h : (idCol r == SqlVal.i nid) = true
  · rw [if_pos h]
    exact getD_set_ne SqlVal.null v r 9 1 (by decide)
  · rw [if_neg (by rw [Bool.eq_false_iff.2 h]; exact Bool.false_ne_true)]

/-- The token-statistics branch never fires during the first hundred
candidates. -/
theorem stats_cond_false (i : Nat) (h : i < 100) :
    (i % 100 == 0 && decide (0 < i)) = false := by
  rcases Nat.eq_zero_or_pos i with h0 | h0
  · subst h0; simp
  · have h1 : (i % 100 == 0) = false := by
      rw [Nat.mod_eq_of_lt h]
      exact beq_eq_false_iff_ne.2 (by omega)
    rw [h1, Bool.false_and]

/-- The enrichment loop under its operating conditions: while every candidate
id is an integer naming exactly one stored row — null summary, text
explanation, ten columns — and fewer than a hundred candidates remain (so
the statistics readout stays dormant), the loop enriches exactly the
candidate rows and emits one update event per candidate, in order, without
an uncaught exception. -/
theorem summariesLoop_spec (f : String → String × Nat) :
    ∀ (ids : List SqlVal) (i : Nat) (t : Store) (evs : List (SqlVal × SqlVal)),
      i + ids.length ≤ 100 →
      ids.Nodup →
      (t.map idCol).Nodup →
      (∀ idv ∈ ids, ∃ r, r ∈ t ∧ idCol r = idv ∧ reader.nullSummary r = true ∧
          isStrVal (col r 8) = true ∧ r.length = 10) →
      (∀ idv ∈ ids, isIntVal idv = true) →
      ∃ evsN, reader.summariesLoop (fun e2 => some (f e2)) ids i t evs =
          (t.map (enrichIf f ids), evs.reverse ++ evsN, none) ∧
        evsN.map Prod.fst = ids := by
  intro ids
  induction ids with
  | nil =>
      intro i t evs _ _ _ _ _
      refine ⟨[], ?_, rfl⟩
      have hcongr : ∀ r ∈ t, enrichIf f [] r = r := by
        intro r _
        rw [enrichIf, if_neg (List.not_mem_nil (idCol r))]
      rw [reader.summariesLoop, List.map_congr_left hcongr]
      simp
  | cons a rest ih =>
      intro i t evs hsz hnd hmapnd hrows hints
      obtain ⟨n, han⟩ : ∃ n : Int, a = SqlVal.i n := by
        have hi := hints a (List.mem_cons_self a rest)
        cases a with
        | i k => exact ⟨k, rfl⟩
        | null => simp [isIntVal] at hi
        | s str => simp [isIntVal] at hi
      subst han
      obtain ⟨r0, hr0t, hr0id, hr0null, hr0str, hr0len⟩ :=
        hrows (SqlVal.i n) (List.mem_cons_self _ rest)
      obtain ⟨e, he⟩ : ∃ e, col r0 8 = SqlVal.s e := by
        cases hc : col r0 8 with
        | s str => exact ⟨str, rfl⟩
        | null => rw [hc] at hr0str; simp [isStrVal] at hr0str
        | i k => rw [hc] at hr0str; simp [isStrVal] at hr0str
      have hanotin : SqlVal.i n ∉ rest := (List.nodup_cons.1 hnd).1
      have hflt : t.filter (fun r => idCol r == SqlVal.i n) = [r0] :=
        filter_idCol_unique t (SqlVal.i n) r0 hmapnd hr0t hr0id
      have hstep : reader.save_notification_summary (fun e2 => some (f e2))
          (SqlVal.i n) t =
          Except.ok ((database.update_notification n "EXPLANATION_SUMMARY"
              (enrichVal f (SqlVal.s e)) t).1,
            some (SqlVal.i n, enrichVal f (SqlVal.s e))) := by
        simp [reader.save_notification_summary, database.get_notification, hflt, he,
          enrichVal]
      have hloopstep : reader.summariesLoop (fun e2 => some (f e2))
          (SqlVal.i n :: rest) i t evs =
          reader.summariesLoop (fun e2 => some (f e2)) rest (i + 1)
            (database.update_notification n "EXPLANATION_SUMMARY"
              (enrichVal f (SqlVal.s e)) t).1
            ((SqlVal.i n, enrichVal f (SqlVal.s e)) :: evs) := by
        rw [reader.summariesLoop, hstep]
        rw [stats_cond_false i (by simp at hsz; omega)]
        simp
      have hmapnd2 :
          ((database.update_notification n "EXPLANATION_SUMMARY"
            (enrichVal f (SqlVal.s e)) t).1.map idCol).Nodup := by
        rw [update_expl_eq, List.map_map]
        have hcongr : ∀ r ∈ t,
            (idCol ∘ fun r => if idCol r == SqlVal.i n then
              r.set 9 (enrichVal f (SqlVal.s e)) else r) r = idCol r := by
          intro r _
          exact idCol_updOne n (enrichVal f (SqlVal.s e)) r
        rw [List.map_congr_left hcongr]
        exact hmapnd
      have hrows2 : ∀ idv ∈ rest,
          ∃ r, r ∈ (database.update_notification n "EXPLANATION_SUMMARY"
              (enrichVal f (SqlVal.s e)) t).1 ∧ idCol r = idv ∧
            reader.nullSummary r = true ∧ isStrVal (col r 8) = true ∧
            r.length = 10 := by
        intro idv hidv
        obtain ⟨r, hrt, hrid, hrnull, hrstr, hrlen⟩ :=
          hrows idv (List.mem_cons_of_mem _ hidv)
        have hidne : idv ≠ SqlVal.i n := by
          intro hEq
          rw [hEq] at hidv
          exact hanotin hidv
        have hbeq : (idCol r == SqlVal.i n) = false :=
          beq_eq_false_iff_ne.2 (by rw [hrid]; exact hidne)
        refine ⟨r, ?_, hrid, hrnull, hrstr, hrlen⟩
        rw [update_expl_eq]
        have hrr : (if idCol r == SqlVal.i n then
            r.set 9 (enrichVal f (SqlVal.s e)) else r) = r := by
          rw [if_neg (by rw [hbeq]; exact Bool.false_ne_true)]
        exact List.mem_map.2 ⟨r, hrt, hrr⟩
      obtain ⟨evsN2, hloop2, hfst2⟩ := ih (i + 1)
        (database.update_notification n "EXPLANATION_SUMMARY"
          (enrichVal f (SqlVal.s e)) t).1
        ((SqlVal.i n, enrichVal f (SqlVal.s e)) :: evs)
        (by simp at hsz ⊢; omega) (List.nodup_cons.1 hnd).2 hmapnd2 hrows2
        (fun idv h => hints idv (List.mem_cons_of_mem _ h))
      have hstore : (database.update_notification n "EXPLANATION_SUMMARY"
          (enrichVal f (SqlVal.s e)) t).1.map (enrichIf f rest) =
          t.map (enrichIf f (SqlVal.i n :: rest)) := by
        rw [update_expl_eq, List.map_map]
        apply List.map_congr_left
        intro r hr
        by_cases hid : idCol r = SqlVal.i n
        · have hr0eq : r = r0 := by
            have hmem : r ∈ t.filter (fun rr => idCol rr == SqlVal.i n) :=
              List.mem_filter.2 ⟨hr, beq_iff_eq.2 hid⟩
            rw [hflt] at hmem
            exact List.mem_singleton.1 hmem
          subst hr0eq
          have hupd : (if idCol r == SqlVal.i n then
              r.set 9 (enrichVal f (SqlVal.s e)) else r) =
              r.set 9 (enrichVal f (SqlVal.s e)) := by
            rw [if_pos (beq_iff_eq.2 hid)]
          simp only [Function.comp_apply, hupd, enrichIf]
          have hidset : idCol (r.set 9 (enrichVal f (SqlVal.s e))) = SqlVal.i n := by
            have := getD_set_ne SqlVal.null (enrichVal f (SqlVal.s e)) r 9 1 (by decide)
            rw [idCol, col, this, ← hid]
            rfl
          rw [if_neg (by rw [hidset]; exact hanotin),
            if_pos (by rw [hid]; exact List.mem_cons_self _ _)]
          rw [enrichRow, he]
        · have hbeq : (idCol r == SqlVal.i n) = false := beq_eq_false_iff_ne.2 hid
          simp only [Function.comp_apply,
            if_neg (show ¬(idCol r == SqlVal.i n) = true by
              rw [hbeq]; exact Bool.false_ne_true), enrichIf]
          by_cases hmem : idCol r ∈ rest
          · rw [if_pos hmem, if_pos (List.mem_cons_of_mem _ hmem)]
          · rw [if_neg hmem, if_neg (by
              rw [List.mem_cons]
              push_neg
              exact ⟨hid, hmem⟩)]
      refine ⟨(SqlVal.i n, enrichVal f (SqlVal.s e)) :: evsN2, ?_, ?_⟩
      · rw [hloopstep, hloop2, hstore, List.reverse_cons, List.append_assoc]
        rfl
      · rw [List.map_cons, hfst2]

/-- Claim C10 as amended: over a well-formed store — ten-column rows with
pairwise distinct integer ids — whose null-summary candidates all carry a
text explanation, fit in the batch limit and number at most 100 (beyond that
the every-100th statistics readout imposes its own parsing constraints, see
the counterexample for the unconditional statement), a run of the enrichment
batch with an always-succeeding summarization stub completes without error,
sets the `EXPLANATION_SUMMARY` of exactly the previously-null rows to the
`"<summary>;<tokenCount>"` value (one update event per such row, no
duplicates), leaves every other row untouched, and a second run over the
resulting store finds zero candidates, performs no update and returns the
store unchanged. -/
theorem enricher_idempotent_spec (f : String → String × Nat) (top_n : Nat) (s : Store)
    (hwf : ∀ r ∈ s, r.length = 10 ∧ isIntVal (idCol r) = true)
    (hnd : (s.map idCol).Nodup)
    (hexp : ∀ r ∈ s, reader.nullSummary r = true → isStrVal (col r 8) = true)
    (hlen : (s.filter reader.nullSummary).length ≤ top_n)
    (h100 : (s.filter reader.nullSummary).length ≤ 100) :
    (reader.save_notification_summaries (fun e2 => some (f e2)) top_n s).2.2 = none ∧
    (reader.save_notification_summaries (fun e2 => some (f e2)) top_n s).1 =
      s.map (fun r => if reader.nullSummary r then enrichRow f r else r) ∧
    ((reader.save_notification_summaries (fun e2 => some (f e2)) top_n s).2.1.map
      Prod.fst).Nodup ∧
    (∀ idv, idv ∈ (reader.save_notification_summaries (fun e2 => some (f e2)) top_n
        s).2.1.map Prod.fst ↔
      ∃ r, r ∈ s ∧ idCol r = idv ∧ reader.nullSummary r = true) ∧
    reader.save_notification_summaries (fun e2 => some (f e2)) top_n
        (reader.save_notification_summaries (fun e2 => some (f e2)) top_n s).1 =
      ((reader.save_notification_summaries (fun e2 => some (f e2)) top_n s).1,
        [], none) := by
  have hperm : List.Perm ((s.filter reader.nullSummary).insertionSort
      (fun a b => reader.rowIdKey b ≤ reader.rowIdKey a)) (s.filter reader.nullSummary) :=
    List.perm_insertionSort _ _
  have hmsr : reader.missing_summary_rows top_n s =
      (s.filter reader.nullSummary).insertionSort
        (fun a b => reader.rowIdKey b ≤ reader.rowIdKey a) := by
    rw [reader.missing_summary_rows]
    exact List.take_of_length_le (by rw [hperm.length_eq]; exact hlen)
  have hidsperm : List.Perm ((reader.missing_summary_rows top_n s).map idCol)
      ((s.filter reader.nullSummary).map idCol) := by
    rw [hmsr]
    exact hperm.map idCol
  have hfilter_nodup : ((s.filter reader.nullSummary).map idCol).Nodup :=
    hnd.sublist ((List.filter_sublist s).map idCol)
  have hids_nodup : ((reader.missing_summary_rows top_n s).map idCol).Nodup :=
    hidsperm.nodup_iff.2 hfilter_nodup
  have hids_mem : ∀ idv, (idv ∈ (reader.missing_summary_rows top_n s).map idCol ↔
      ∃ r, r ∈ s ∧ idCol r = idv ∧ reader.nullSummary r = true) := by
    intro idv
    rw [hidsperm.mem_iff, List.mem_map]
    constructor
    · rintro ⟨r, hr, rfl⟩
      have h2 := List.mem_filter.1 hr
      exact ⟨r, h2.1, rfl, h2.2⟩
    · rintro ⟨r, hr, rfl, hnull⟩
      exact ⟨r, List.mem_filter.2 ⟨hr, hnull⟩, rfl⟩
  have hsz : 0 + ((reader.missing_summary_rows top_n s).map idCol).length ≤ 100 := by
    rw [List.length_map, hmsr, hperm.length_eq]
    simpa using h100
  have hrows : ∀ idv ∈ (reader.missing_summary_rows top_n s).map idCol,
      ∃ r, r ∈ s ∧ idCol r = idv ∧ reader.nullSummary r = true ∧
        isStrVal (col r 8) = true ∧ r.length = 10 := by
    intro idv hidv
    obtain ⟨r, hrs, hrid, hrnull⟩ := (hids_mem idv).1 hidv
    exact ⟨r, hrs, hrid, hrnull, hexp r hrs hrnull, (hwf r hrs).1⟩
  have hints : ∀ idv ∈ (reader.missing_summary_rows top_n s).map idCol,
      isIntVal idv = true := by
    intro idv hidv
    obtain ⟨r, hrs, hrid, _⟩ := (hids_mem idv).1 hidv
    rw [← hrid]
    exact (hwf r hrs).2
  obtain ⟨evsN, hloop, hfst⟩ := summariesLoop_spec f
    ((reader.missing_summary_rows top_n s).map idCol) 0 s [] hsz hids_nodup hnd
    hrows hints
  have hout : reader.save_notification_summaries (fun e2 => some (f e2)) top_n s =
      (s.map (enrichIf f ((reader.missing_summary_rows top_n s).map idCol)), evsN,
        none) := by
    rw [reader.save_notification_summaries, hloop]
    simp
  have hmapeq : s.map (enrichIf f ((reader.missing_summary_rows top_n s).map idCol)) =
      s.map (fun r => if reader.nullSummary r then enrichRow f r else r) := by
    apply List.map_congr_left
    intro r hr
    rw [enrichIf]
    by_cases hnull : reader.nullSummary r = true
    · rw [if_pos ((hids_mem (idCol r)).2 ⟨r, hr, rfl, hnull⟩), if_pos hnull]
    · have hnull2 : reader.nullSummary r = false := Bool.eq_false_iff.2 hnull
      rw [if_neg ?memneg, if_neg (by rw [hnull2]; exact Bool.false_ne_true)]
      case memneg =>
        intro hmem
        obtain ⟨r2, hr2, hr2id, hr2null⟩ := (hids_mem (idCol r)).1 hmem
        have : r2 = r := List.inj_on_of_nodup_map hnd hr2 hr hr2id
        rw [this] at hr2null
        exact hnull hr2null
  have hnonull : (s.map (enrichIf f
      ((reader.missing_summary_rows top_n s).map idCol))).filter
      reader.nullSummary = [] := by
    rw [List.filter_eq_nil_iff]
    intro rr hrr
    obtain ⟨r, hr, rfl⟩ := List.mem_map.1 hrr
    rw [enrichIf]
    by_cases hmem : idCol r ∈ (reader.missing_summary_rows top_n s).map idCol
    · rw [if_pos hmem]
      obtain ⟨r2, hr2, hr2id, hr2null⟩ := (hids_mem (idCol r)).1 hmem
      have hre : r2 = r := List.inj_on_of_nodup_map hnd hr2 hr hr2id
      rw [hre] at hr2null
      have hlen10 : r.length = 10 := (hwf r hr).1
      have hstr : isStrVal (col r 8) = true := hexp r hr hr2null
      obtain ⟨e, he⟩ : ∃ e, col r 8 = SqlVal.s e := by
        cases hc : col r 8 with
        | s str => exact ⟨str, rfl⟩
        | null => rw [hc] at hstr; simp [isStrVal] at hstr
        | i k => rw [hc] at hstr; simp [isStrVal] at hstr
      intro hcontra
      rw [reader.nullSummary, enrichRow, col,
        getD_set_self SqlVal.null _ r 9 (by omega), he] at hcontra
      simp [enrichVal] at hcontra
    · rw [if_neg hmem]
      intro hcontra
      exact hmem ((hids_mem (idCol r)).2 ⟨r, hr, rfl, hcontra⟩)
  have hfix : reader.save_notification_summaries (fun e2 => some (f e2)) top_n
      (s.map (enrichIf f ((reader.missing_summary_rows top_n s).map idCol))) =
      (s.map (enrichIf f ((reader.missing_summary_rows top_n s).map idCol)),
        [], none) := by
    rw [reader.save_notification_summaries, reader.missing_summary_rows, hnonull]
    simp [List.insertionSort, reader.summariesLoop]
  refine ⟨by rw [hout], by rw [hout, ← hmapeq], ?_, ?_, ?_⟩
  · rw [hout]
    show (evsN.map Prod.fst).Nodup
    rw [hfst]
    exact hids_nodup
  · intro idv
    rw [hout]
    show idv ∈ evsN.map Prod.fst ↔ _
    rw [hfst]
    exact hids_mem idv
  · rw [hout]
    exact hfix

/-- Witness for `enricher_idempotent_spec` over a two-row store with
candidate ids `4` and `9` and a constant summarization stub. -/
theorem enricher_idempotent_witness :
    (reader.save_notification_summaries alwaysSummarize 10 [mkRow 4, mkRow 9]).2.2 =
      none ∧
    (reader.save_notification_summaries alwaysSummarize 10 [mkRow 4, mkRow 9]).1 =
      [mkRow 4, mkRow 9].map (fun r => if reader.nullSummary r then
        enrichRow (fun _ => ("S", 3)) r else r) ∧
    reader.save_notification_summaries alwaysSummarize 10
        (reader.save_notification_summaries alwaysSummarize 10 [mkRow 4, mkRow 9]).1 =
      ((reader.save_notification_summaries alwaysSummarize 10 [mkRow 4, mkRow 9]).1,
        [], none) :=
  ⟨(enricher_idempotent_spec (fun _ => ("S", 3)) 10 [mkRow 4, mkRow 9] (by decide)
      (by decide) (by decide) (by decide) (by decide)).1,
   (enricher_idempotent_spec (fun _ => ("S", 3)) 10 [mkRow 4, mkRow 9] (by decide)
      (by decide) (by decide) (by decide) (by decide)).2.1,
   (enricher_idempotent_spec (fun _ => ("S", 3)) 10 [mkRow 4, mkRow 9] (by decide)
      (by decide) (by decide) (by decide) (by decide)).2.2.2.2⟩
